import Mathlib

/-!
Person manager front end: the component `App` of `src/src/App.js`.

A shallow embedding of the component: its three state cells (`persons`,
`status`, `editingPerson`), the asynchronous handlers (`loadPersons`,
`handleSearch`, `handleAdd`, `handleUpdate`, `handleDelete`) and the parts of
the JavaScript run-time they rely on (`String.prototype.trim`, `Number`,
`isNaN`, template literals, `async` and `await`, `window.confirm`).

* A JavaScript string is a list of characters. The characters the component
  inspects (white space, digits, signs, letters of numeric literals) lie in the
  basic multilingual plane, where a character is one UTF-16 code unit.
* A JavaScript number is an IEEE-754 double, represented exactly by a sign and
  a dyadic magnitude; decimal text is converted by rounding to the nearest
  double, ties to even, as the engines do.
* An `async` function is a tree of effects (`Prog`). The run-time executes one
  synchronous segment at a time and resumes a suspended function when the
  request it awaits has settled.
* The person service and the user are an environment (`Env`) that answers
  every request and every prompt; the theorems hold for every environment.
-/

namespace PersonApp

/-! ## Strings -/

/-- A JavaScript string. -/
abbrev JSString := List Char

/-- The code points removed by `trim` and skipped by `Number`: ECMAScript
`WhiteSpace` and `LineTerminator`. -/
def isWhiteSpace (c : Char) : Bool :=
  let n := c.toNat
  n == 0x09 || n == 0x0A || n == 0x0B || n == 0x0C || n == 0x0D || n == 0x20 ||
  n == 0xA0 || n == 0x1680 || (0x2000 ≤ n && n ≤ 0x200A) || n == 0x2028 ||
  n == 0x2029 || n == 0x202F || n == 0x205F || n == 0x3000 || n == 0xFEFF

/-- The string without its leading white space. -/
def trimStart (s : JSString) : JSString :=
  s.dropWhile isWhiteSpace

/-- The string without its trailing white space. -/
def trimEnd (s : JSString) : JSString :=
  (s.reverse.dropWhile isWhiteSpace).reverse

/-- The method `String.prototype.trim`. -/
def trim (s : JSString) : JSString :=
  trimEnd (trimStart s)

/-! ## Numbers -/

/-- A JavaScript number: `NaN`, an infinity, or a finite double of magnitude
`num / 2 ^ den2` (`num` odd unless `den2 = 0`), so that an integer `n` is
`fin _ n 0`. The two zeros are `fin false 0 0` and `fin true 0 0`. -/
inductive JSNumber where
  | nan
  | inf (neg : Bool)
  | fin (neg : Bool) (num : Nat) (den2 : Nat)
  deriving DecidableEq, Repr

/-- The test `Number.isFinite`. -/
def JSNumber.isFinite : JSNumber → Bool
  | .fin _ _ _ => true
  | _ => false

/-- The number of binary digits of `n`, by halving at most `fuel` times. -/
def bitLength : Nat → Nat → Nat
  | 0, _ => 0
  | fuel + 1, n => if n = 0 then 0 else bitLength fuel (n / 2) + 1

/-- The largest `e` with `2 ^ e ≤ p / q`, for positive `p` and `q`. -/
def floorLog2 (p q : Nat) : Int :=
  let lp := bitLength p p
  let lq := bitLength q q
  -- 2 ^ (lp - 1) ≤ p < 2 ^ lp and 2 ^ (lq - 1) ≤ q < 2 ^ lq
  if lq ≤ lp then
    if q * 2 ^ (lp - lq) ≤ p then (lp - lq : Nat) else (lp - lq : Nat) - 1
  else
    if q ≤ p * 2 ^ (lq - lp) then -((lq - lp : Nat) : Int) else -((lq - lp : Nat) : Int) - 1

/-- The fraction `num / 2 ^ den2` in lowest terms. -/
def reduceDyadic : Nat → Nat → Nat × Nat
  | num, 0 => (num, 0)
  | num, den2 + 1 => if num % 2 = 0 then reduceDyadic (num / 2) den2 else (num, den2 + 1)

/-- The quotient `n / d` rounded to the nearest integer, a tie going to the
even neighbour. -/
def divRoundHalfEven (n d : Nat) : Nat :=
  let r := n / d
  let rest := n % d
  if 2 * rest < d then r
  else if d < 2 * rest then r + 1
  else if r % 2 = 0 then r else r + 1

/-- The double nearest to `p / q` (`q` positive), a tie going to the even
significand: 53 significant bits for a normal value, multiples of `2 ^ -1074`
below `2 ^ -1022`, and an infinity from `2 ^ 1024` on. -/
def roundToDouble (neg : Bool) (p q : Nat) : JSNumber :=
  if p = 0 then .fin neg 0 0
  else
    let e := max (floorLog2 p q) (-1022)
    -- the spacing of the doubles around `p / q` is `2 ^ t`
    let t := e - 52
    if 0 ≤ t then
      let v := divRoundHalfEven p (q * 2 ^ t.toNat) * 2 ^ t.toNat
      if 2 ^ 1024 ≤ v then .inf neg else .fin neg v 0
    else
      let r := reduceDyadic (divRoundHalfEven (p * 2 ^ (-t).toNat) q) (-t).toNat
      .fin neg r.1 r.2

/-- The value of a decimal digit. -/
def decDigit (c : Char) : Option Nat :=
  if '0' ≤ c ∧ c ≤ '9' then some (c.toNat - '0'.toNat) else none

/-- The value of a digit in base 16. -/
def hexDigit (c : Char) : Option Nat :=
  if '0' ≤ c ∧ c ≤ '9' then some (c.toNat - '0'.toNat)
  else if 'a' ≤ c ∧ c ≤ 'f' then some (c.toNat - 'a'.toNat + 10)
  else if 'A' ≤ c ∧ c ≤ 'F' then some (c.toNat - 'A'.toNat + 10)
  else none

/-- The value of a digit in the given base (2, 8, 10 or 16). -/
def digitIn (base : Nat) (c : Char) : Option Nat :=
  match hexDigit c with
  | some d => if d < base then some d else none
  | none => none

/-- The value of a string of digits of the given base, read after the digits
whose value is `acc`; `none` when a character is not such a digit. -/
def digitsFrom (base : Nat) (acc : Nat) : List Char → Option Nat
  | [] => some acc
  | c :: cs =>
    match digitIn base c with
    | some d => digitsFrom base (acc * base + d) cs
    | none => none

/-- The grammar symbol `DecimalDigits` (or its binary, octal or hexadecimal
counterpart): a non-empty string of digits, with its value. -/
def digits (base : Nat) (s : List Char) : Option Nat :=
  if s = [] then none else digitsFrom base 0 s

/-- The mathematical value of a numeric string: an infinity, or
`digits * 10 ^ exp10`. -/
inductive MV where
  | infinity
  | dec (digits : Nat) (exp10 : Int)
  deriving DecidableEq, Repr

/-- The grammar symbol `SignedInteger`. -/
def signedInteger : List Char → Option Int
  | '+' :: ds => (digits 10 ds).map fun n => (n : Int)
  | '-' :: ds => (digits 10 ds).map fun n => -(n : Int)
  | ds => (digits 10 ds).map fun n => (n : Int)

/-- The grammar symbol `ExponentPart`, optional. -/
def exponentPart : List Char → Option Int
  | [] => some 0
  | c :: cs => if c = 'e' ∨ c = 'E' then signedInteger cs else none

/-- The grammar symbol `StrUnsignedDecimalLiteral`. -/
def strUnsignedDecimalLiteral (s : List Char) : Option MV :=
  if s = "Infinity".toList then some .infinity
  else
    let intPart := s.takeWhile fun c => (decDigit c).isSome
    match s.dropWhile fun c => (decDigit c).isSome with
    | '.' :: rest =>
      let fracPart := rest.takeWhile fun c => (decDigit c).isSome
      if intPart = [] ∧ fracPart = [] then none
      else
        match digitsFrom 10 0 (intPart ++ fracPart),
            exponentPart (rest.dropWhile fun c => (decDigit c).isSome) with
        | some d, some x => some (.dec d (x - fracPart.length))
        | _, _ => none
    | rest =>
      match digits 10 intPart, exponentPart rest with
      | some d, some x => some (.dec d x)
      | _, _ => none

/-- The grammar symbol `NonDecimalIntegerLiteral`: `0b`, `0o` or `0x` and
digits of that base. -/
def nonDecimalIntegerLiteral : List Char → Option MV
  | '0' :: c :: ds =>
    if c = 'b' ∨ c = 'B' then (digits 2 ds).map fun n => .dec n 0
    else if c = 'o' ∨ c = 'O' then (digits 8 ds).map fun n => .dec n 0
    else if c = 'x' ∨ c = 'X' then (digits 16 ds).map fun n => .dec n 0
    else none
  | _ => none

/-- The grammar symbol `StrNumericLiteral`: whether the text has a minus sign,
and its value. Only a decimal literal takes a sign. -/
def strNumericLiteral (s : List Char) : Option (Bool × MV) :=
  match nonDecimalIntegerLiteral s with
  | some v => some (false, v)
  | none =>
    match s with
    | '+' :: rest => (strUnsignedDecimalLiteral rest).map fun v => (false, v)
    | '-' :: rest => (strUnsignedDecimalLiteral rest).map fun v => (true, v)
    | _ => (strUnsignedDecimalLiteral s).map fun v => (false, v)

/-- The conversion `StringToNumber`, which `Number(string)` and
`isNaN(string)` apply: white space around the text is skipped, the empty text
is `0`, a text outside the grammar is `NaN`, and a value is rounded to the
nearest double. (Past 20 significant digits ECMAScript lets an engine round
from a truncated text; the engines in use round the full text, as here.) -/
def stringToNumber (s : JSString) : JSNumber :=
  let t := trim s
  if t = [] then .fin false 0 0
  else
    match strNumericLiteral t with
    | none => .nan
    | some (neg, .infinity) => .inf neg
    | some (neg, .dec d x) =>
      if 0 ≤ x then roundToDouble neg (d * 10 ^ x.toNat) 1
      else roundToDouble neg d (10 ^ (-x).toNat)

/-- The global function `isNaN`, on a string. -/
def isNaN (s : JSString) : Bool :=
  stringToNumber s == .nan

/-- The call `Number(s)` on a string. -/
def Number (s : JSString) : JSNumber :=
  stringToNumber s

/-- The number a string of decimal digits denotes. -/
def decimalValue (s : List Char) : Nat :=
  s.foldl (fun acc c => acc * 10 + (c.toNat - '0'.toNat)) 0

/-- The decimal text of a natural number, as a template literal prints an
array length. -/
def natToString (n : Nat) : JSString :=
  Nat.toDigits 10 n

/-- The decimal exponent of a positive `num / 2 ^ den2` below one: the least
`j` from `j` on with `2 ^ den2 ≤ num * 10 ^ j`, tried `fuel` times. -/
def leadingShift (num den2 : Nat) : Nat → Nat → Nat
  | 0, j => j
  | fuel + 1, j => if 2 ^ den2 ≤ num * 10 ^ j then j else leadingShift num den2 fuel (j + 1)

/-- The integer `n` with `10 ^ (n - 1) ≤ num / 2 ^ den2 < 10 ^ n`, for a
positive double. -/
def decimalExponent (num den2 : Nat) : Int :=
  if 2 ^ den2 ≤ num then ((natToString (num / 2 ^ den2)).length : Int)
  else 1 - (leadingShift num den2 400 1 : Int)

/-- Whether the decimal `s * 10 ^ (n - k)` converts to the double
`num / 2 ^ den2`. -/
def convertsTo (num den2 : Nat) (k : Nat) (s : Nat) (n : Int) : Bool :=
  if (k : Int) ≤ n then roundToDouble false (s * 10 ^ (n - k).toNat) 1 == .fin false num den2
  else roundToDouble false s (10 ^ (k - n).toNat) == .fin false num den2

/-- The `k`-digit decimals next to the positive double `num / 2 ^ den2`: the
one below (or equal) and the one above, each as digits `s` and exponent `n`
standing for `s * 10 ^ (n - k)`, and whether the lower one is the nearer
(on a tie, whether its `s` is even). -/
def neighbours (num den2 : Nat) (k : Nat) : (Nat × Int) × (Nat × Int) × Bool :=
  let n := decimalExponent num den2
  -- the double is `p / q` in units of `10 ^ (n - k)`
  let p := if n ≤ (k : Int) then num * 10 ^ ((k : Int) - n).toNat else num
  let q := if n ≤ (k : Int) then 2 ^ den2 else 2 ^ den2 * 10 ^ (n - (k : Int)).toNat
  let lo := p / q
  let hi : Nat × Int := if lo + 1 = 10 ^ k then (10 ^ (k - 1), n + 1) else (lo + 1, n)
  let lowerNearer :=
    if 2 * p < (2 * lo + 1) * q then true
    else if (2 * lo + 1) * q < 2 * p then false
    else lo % 2 = 0
  ((lo, n), hi, lowerNearer)

/-- The shortest decimal that converts to the positive double
`num / 2 ^ den2`, and of two of that length the nearer: its number of digits
`k`, `k + 1`, ... (at most `fuel` lengths are tried), its digits `s` and its
exponent `n`. -/
def shortestDecimal (num den2 : Nat) : Nat → Nat → Nat × Nat × Int
  | 0, k => (k, (neighbours num den2 k).1)
  | fuel + 1, k =>
    let c := neighbours num den2 k
    let lo := c.1
    let hi := c.2.1
    let okLo := convertsTo num den2 k lo.1 lo.2
    let okHi := convertsTo num den2 k hi.1 hi.2
    if okLo && okHi then (if c.2.2 then (k, lo) else (k, hi))
    else if okLo then (k, lo)
    else if okHi then (k, hi)
    else shortestDecimal num den2 fuel (k + 1)

/-- The operation `Number::toString` in radix 10, which a template literal
applies to a number: the shortest decimal that converts back to the number,
written in full while its exponent `n` lies between -5 and 21, and with an
exponent part otherwise. -/
def numberToString : JSNumber → JSString
  | .nan => "NaN".toList
  | .inf false => "Infinity".toList
  | .inf true => "-Infinity".toList
  | .fin neg num den2 =>
    if num = 0 then "0".toList
    else
      let r := shortestDecimal num den2 17 1
      let k := r.1
      let ds := natToString r.2.1
      let n := r.2.2
      let text :=
        if -5 ≤ n ∧ n ≤ 21 then
          if (k : Int) ≤ n then ds ++ List.replicate (n.toNat - k) '0'
          else if 0 < n then ds.take n.toNat ++ '.' :: ds.drop n.toNat
          else "0.".toList ++ List.replicate (-n).toNat '0' ++ ds
        else
          let e := n - 1
          let exponent := (if e < 0 then '-' else '+') :: natToString e.natAbs
          if k = 1 then ds ++ 'e' :: exponent
          else ds.take 1 ++ '.' :: ds.drop 1 ++ 'e' :: exponent
      if neg then '-' :: text else text

/-- The number the component holds for an integer identifier: the double
nearest to it, as `JSON.parse` reads the identifier of a record. -/
def JSNumber.ofInt (i : Int) : JSNumber :=
  roundToDouble (decide (i < 0)) i.natAbs 1

/-- The text a template literal prints for an identifier. -/
def idToString (id : Int) : JSString :=
  numberToString (JSNumber.ofInt id)

/-! ## Data model -/

/-- A person record as the service returns it; `other` holds the profile
fields the component never reads. -/
structure Person where
  id : Int
  name : JSString
  other : List (JSString × JSString)
  deriving DecidableEq, Repr

/-- The form data handed to `handleAdd`: a person without an identifier. -/
structure NewPerson where
  name : JSString
  other : List (JSString × JSString)
  deriving DecidableEq, Repr

/-- The value of the `status` state cell. -/
structure Status where
  message : JSString
  isError : Bool
  deriving DecidableEq, Repr

/-- The three state cells of `App`. -/
structure State where
  persons : List Person
  status : Status
  editingPerson : Option Person
  deriving DecidableEq, Repr

/-- The state `useState` starts from. -/
def State.initial : State :=
  { persons := [], status := ⟨"Ready".toList, false⟩, editingPerson := none }

/-! ## The person service -/

/-- A call to `personService`. -/
inductive Request where
  | getAll
  | getById (id : JSNumber)
  | searchByName (name : JSString)
  | create (person : NewPerson)
  | update (id : Int) (person : Person)
  | delete (id : Int)
  deriving DecidableEq, Repr

/-- What the promise of a request resolves to. -/
def Request.Result : Request → Type
  | .getAll => List Person
  | .getById _ => Option Person
  | .searchByName _ => List Person
  | .create _ => Person
  | .update _ _ => Person
  | .delete _ => Unit

/-- A settled promise: rejected with an error whose `message` is given, or
resolved. -/
abbrev Settled (r : Request) : Type :=
  Except JSString r.Result

/-- Everything outside the component: the answer of `window.confirm` to a
prompt and the outcome of each service request. (One invocation of a handler
issues no request twice, so a function of the request describes every
behaviour of the service it can meet.) -/
structure Env where
  confirm : JSString → Bool
  respond : (r : Request) → Settled r

/-! ## Asynchronous functions -/

/-- The body of an `async` function, as the effects it performs in order. -/
inductive Prog where
  /-- Statement `return value`, `none` standing for `undefined`. -/
  | ret (value : Option Bool)
  | setPersons (persons : List Person) (next : Prog)
  | setStatus (status : Status) (next : Prog)
  | setEditingPerson (person : Option Person) (next : Prog)
  /-- A call of `window.confirm`, which blocks until the user answers. -/
  | confirm (message : JSString) (next : Bool → Prog)
  /-- Expression `await personService.request(...)`: the request is issued and
  the function suspended until the promise settles; a rejection is thrown
  into the enclosing `try`. -/
  | await (r : Request) (next : Settled r → Prog)
  /-- A call of an `async` function whose promise is dropped. -/
  | call (callee : Prog) (next : Prog)

/-- What an observer of the component sees. -/
inductive Event where
  | setPersons (persons : List Person)
  | setStatus (status : Status)
  | setEditingPerson (person : Option Person)
  | confirm (message : JSString) (answer : Bool)
  | request (r : Request)
  /-- The handler that was invoked returns (its promise resolves). -/
  | returned (value : Option Bool)
  deriving DecidableEq, Repr

/-- An `async` function suspended at an `await`. -/
structure Suspended where
  isHandler : Bool
  request : Request
  resume : Settled request → Prog

/-- One synchronous segment: the function runs up to its next `await` or its
`return`; an `async` function it calls runs, inside the same segment, up to
its own first `await`, and then the caller goes on. The result is the events
of the segment and the functions left suspended, in the order of their
requests. -/
def runSegment (env : Env) : Bool → Prog → List Event × List Suspended
  | isHandler, .ret value => (if isHandler then [.returned value] else [], [])
  | isHandler, .setPersons persons next =>
    let r := runSegment env isHandler next
    (.setPersons persons :: r.1, r.2)
  | isHandler, .setStatus status next =>
    let r := runSegment env isHandler next
    (.setStatus status :: r.1, r.2)
  | isHandler, .setEditingPerson person next =>
    let r := runSegment env isHandler next
    (.setEditingPerson person :: r.1, r.2)
  | isHandler, .confirm message next =>
    let r := runSegment env isHandler (next (env.confirm message))
    (.confirm message (env.confirm message) :: r.1, r.2)
  | isHandler, .await request next => ([.request request], [⟨isHandler, request, next⟩])
  | isHandler, .call callee next =>
    let c := runSegment env false callee
    let r := runSegment env isHandler next
    (c.1 ++ r.1, c.2 ++ r.2)

/-- The event loop: the requests settle in the order they were issued, and
each suspended function then runs its next segment. (No handler of the
component leaves two functions suspended at once, so the order is immaterial
to them.) -/
def eventLoop (env : Env) : Nat → List Suspended → List Event
  | 0, _ => []
  | _ + 1, [] => []
  | fuel + 1, s :: rest =>
    let r := runSegment env s.isHandler (s.resume (env.respond s.request))
    r.1 ++ eventLoop env fuel (rest ++ r.2)

/-- The events of one invocation of a handler, from the call until nothing is
left suspended (at most `fuel` resumptions). -/
def run (env : Env) (fuel : Nat) (handler : Prog) : List Event :=
  let r := runSegment env true handler
  r.1 ++ eventLoop env fuel r.2

/-- The state after an event. -/
def State.step (st : State) : Event → State
  | .setPersons persons => { st with persons := persons }
  | .setStatus status => { st with status := status }
  | .setEditingPerson person => { st with editingPerson := person }
  | _ => st

/-- The state after a sequence of events. -/
def State.after (st : State) (trace : List Event) : State :=
  trace.foldl State.step st

/-- The service requests of a trace, in order. -/
def requests (trace : List Event) : List Request :=
  trace.filterMap fun
    | .request r => some r
    | _ => none

/-- The values written to `status` in a trace, in order. -/
def statusWrites (trace : List Event) : List Status :=
  trace.filterMap fun
    | .setStatus s => some s
    | _ => none

/-- The value the handler returned, if it has returned. -/
def returnValue (trace : List Event) : Option (Option Bool) :=
  trace.findSome? fun
    | .returned v => some v
    | _ => none

/-! ## The component -/

/-- The function `updateStatus`, followed by the rest of the caller. -/
def updateStatus (message : JSString) (isError : Bool) (next : Prog) : Prog :=
  .setStatus ⟨message, isError⟩ next

/-- The function `loadPersons`. -/
def loadPersons : Prog :=
  updateStatus "Loading…".toList false <|
  .await .getAll fun
    | .ok data =>
      .setPersons data <|
      updateStatus "Loaded".toList false <|
      .ret none
    | .error message =>
      updateStatus message true <|
      .ret none

/-- The function `handleSearch`. -/
def handleSearch (query : JSString) : Prog :=
  if trim query = [] then
    updateStatus "Please enter a name or ID".toList true <|
    .ret none
  else
    updateStatus "Searching…".toList false <|
    if !isNaN query then
      .await (.getById (Number query)) fun
        | .ok (some person) =>
          .setPersons [person] <|
          updateStatus ("Found by ID: ".toList ++ query) false <|
          .ret none
        | .ok none =>
          .setPersons [] <|
          updateStatus ("No person found with ID: ".toList ++ query) false <|
          .ret none
        | .error message =>
          updateStatus message true <|
          .setPersons [] <|
          .ret none
    else
      .await (.searchByName query) fun
        | .ok results =>
          .setPersons results <|
          if results.length = 0 then
            updateStatus ("No results found for: \"".toList ++ query ++ "\"".toList) false <|
            .ret none
          else
            updateStatus ("Found ".toList ++ natToString results.length ++
              " result(s) for: \"".toList ++ query ++ "\"".toList) false <|
            .ret none
        | .error message =>
          updateStatus message true <|
          .setPersons [] <|
          .ret none

/-- The function `handleClearSearch`. -/
def handleClearSearch : Prog :=
  .call loadPersons <|
  .ret none

/-- The function `handleAdd`. -/
def handleAdd (person : NewPerson) : Prog :=
  .await (.create person) fun
    | .ok _ =>
      updateStatus "Added person".toList false <|
      .call loadPersons <|
      .ret (some true)
    | .error message =>
      updateStatus message true <|
      .ret (some false)

/-- The function `handleUpdate`. -/
def handleUpdate (id : Int) (person : Person) : Prog :=
  .await (.update id person) fun
    | .ok _ =>
      updateStatus ("Updated #".toList ++ idToString id) false <|
      .call loadPersons <|
      .setEditingPerson none <|
      .ret (some true)
    | .error message =>
      updateStatus message true <|
      .ret (some false)

/-- The function `handleEdit`. -/
def handleEdit (person : Person) : Prog :=
  .setEditingPerson (some person) <|
  .ret none

/-- The function `handleCancelEdit`. -/
def handleCancelEdit : Prog :=
  .setEditingPerson none <|
  .ret none

/-- The prompt `handleDelete` shows. -/
def deletePrompt (id : Int) : JSString :=
  "Delete person #".toList ++ idToString id ++ "? This cannot be undone.".toList

/-- The function `handleDelete`, in a render where the `editingPerson` cell
holds `editingPerson`. -/
def handleDelete (editingPerson : Option Person) (id : Int) : Prog :=
  .confirm (deletePrompt id) fun confirmed =>
    if !confirmed then
      updateStatus "Deletion cancelled".toList false <|
      .ret none
    else
      .await (.delete id) fun
        | .ok _ =>
          updateStatus ("Deleted #".toList ++ idToString id) false <|
          let rest := .call loadPersons <| .ret none
          match editingPerson with
          | some p => if p.id = id then .setEditingPerson none rest else rest
          | none => rest
        | .error message =>
          updateStatus message true <|
          .ret none

/-! ## Sample environments -/

/-- Three stored persons. -/
def samplePersons : List Person :=
  [⟨1, "Ann Lee".toList, []⟩, ⟨2, "Anna Bell".toList, []⟩, ⟨5, "Bob Ray".toList, []⟩]

/-- A service over `samplePersons` (search by name prefix), and a user who
confirms every prompt. -/
def sampleBackend : Env where
  confirm := fun _ => true
  respond := fun r =>
    match r with
    | .getAll => .ok samplePersons
    | .getById (.fin false n 0) => .ok (samplePersons.find? fun p => p.id == (n : Int))
    | .getById _ => .ok none
    | .searchByName name => .ok (samplePersons.filter fun p => name.isPrefixOf p.name)
    | .create person => .ok ⟨6, person.name, person.other⟩
    | .update id person => .ok { person with id := id }
    | .delete _ => .ok ()

/-- A service that cannot be reached: every request is rejected, even the
reload after a mutation held to have succeeded. -/
def offlineBackend : Env where
  confirm := fun _ => true
  respond := fun _ => .error "Failed to fetch".toList

/-- The sample service when the reload after a mutation is rejected, the error
reading `Added person`. -/
def reloadRejected : Env where
  confirm := fun _ => true
  respond := fun r =>
    match r with
    | .getAll => .error "Added person".toList
    | .getById id => sampleBackend.respond (.getById id)
    | .searchByName name => sampleBackend.respond (.searchByName name)
    | .create person => sampleBackend.respond (.create person)
    | .update id person => sampleBackend.respond (.update id person)
    | .delete id => sampleBackend.respond (.delete id)

/-- The sample service with a user who declines every prompt. -/
def decliningUser : Env :=
  { sampleBackend with confirm := fun _ => false }

/-- A state with `samplePersons` loaded and the person 5 in the form. -/
def sampleState : State :=
  { persons := samplePersons
    status := ⟨"Loaded".toList, false⟩
    editingPerson := some ⟨5, "Bob Ray".toList, []⟩ }

/-- The trace of a mutation that succeeded, seen from state `st`: up to the
return of the handler (with `value`) the writes to `status` are `success` and
then `Loading…`, and the `getAll` request is already issued; after the return
comes one more write, `Loaded` with `persons` replaced when `getAll` resolves
and the error message, flagged, when it is rejected. So `status` does not end
on `success`, and its text is that of `success` only when `getAll` is rejected
with that very text. -/
def ReloadsAfter (env : Env) (st : State) (trace : List Event) (success : Status)
    (value : Option Bool) : Prop :=
  ∃ before after,
    trace = before ++ .returned value :: after ∧
    statusWrites before = [success, ⟨"Loading…".toList, false⟩] ∧
    Request.getAll ∈ requests before ∧
    returnValue trace = some value ∧
    (∀ data, env.respond .getAll = .ok data →
      statusWrites after = [⟨"Loaded".toList, false⟩] ∧
      (st.after trace).status = ⟨"Loaded".toList, false⟩ ∧
      (st.after trace).persons = data) ∧
    (∀ message, env.respond .getAll = .error message →
      statusWrites after = [⟨message, true⟩] ∧
      (st.after trace).status = ⟨message, true⟩) ∧
    (st.after trace).status ≠ success ∧
    ((st.after trace).status.message = success.message →
      env.respond .getAll = .error success.message)

/-! ## Traces of the handlers -/

/-- The events of `loadPersons` once its request has settled. -/
def loadPersonsTail (env : Env) : List Event :=
  match env.respond .getAll with
  | .ok data => [.setPersons data, .setStatus ⟨"Loaded".toList, false⟩]
  | .error message => [.setStatus ⟨message, true⟩]

end PersonApp

namespace PersonApp

/-! ## Numbers and numeric strings -/

theorem bitLength_zero (fuel : Nat) : bitLength fuel 0 = 0 := by
  cases fuel <;> simp [bitLength]

theorem bitLength_bounds (fuel : Nat) : ∀ n, n ≤ fuel → n ≠ 0 →
    2 ^ (bitLength fuel n - 1) ≤ n ∧ n < 2 ^ bitLength fuel n := by
  induction fuel with
  | zero => intro n h h0; omega
  | succ f ih =>
    intro n h h0
    simp only [bitLength, h0, if_false]
    by_cases h1 : n / 2 = 0
    · have : n = 1 := by omega
      subst this
      simp [bitLength_zero]
    · have hle : n / 2 ≤ f := by omega
      obtain ⟨hlo, hhi⟩ := ih (n / 2) hle h1
      have hpos : bitLength f (n / 2) ≠ 0 := by
        intro hz
        rw [hz] at hhi
        simp at hhi
        exact h1 hhi
      obtain ⟨b, hb⟩ := Nat.exists_eq_succ_of_ne_zero hpos
      rw [hb] at hlo hhi ⊢
      simp only [Nat.succ_eq_add_one, Nat.add_sub_cancel] at hlo ⊢
      constructor
      · rw [pow_succ]; omega
      · rw [pow_succ]; omega

theorem reduceDyadic_mul_pow (k : Nat) : ∀ v, reduceDyadic (v * 2 ^ k) k = (v, 0) := by
  induction k with
  | zero => intro v; simp [reduceDyadic]
  | succ k ih =>
    intro v
    have e : v * 2 ^ (k + 1) = 2 * (v * 2 ^ k) := by ring
    simp [reduceDyadic, e, ih]

theorem divRoundHalfEven_one (n : Nat) : divRoundHalfEven n 1 = n := by
  simp [divRoundHalfEven, Nat.mod_one]

set_option exponentiation.threshold 2000 in
theorem not_overflow_of_lt (v : Nat) (hv : v < 2 ^ 53) : ¬ (2 ^ 1024 ≤ v) :=
  not_le.mpr (lt_of_lt_of_le hv (Nat.pow_le_pow_right Nat.two_pos (by decide)))

/-- An integer below `2 ^ 53` is a double. -/
theorem roundToDouble_exact (neg : Bool) (v : Nat) (hv : v < 2 ^ 53) :
    roundToDouble neg v 1 = .fin neg v 0 := by
  by_cases h0 : v = 0
  · simp [roundToDouble, h0]
  · obtain ⟨hlo, hhi⟩ := bitLength_bounds v v le_rfl h0
    have hL1 : 1 ≤ bitLength v v := by
      rcases Nat.eq_zero_or_pos (bitLength v v) with hz | hp
      · rw [hz] at hhi; omega
      · exact hp
    have hL53 : bitLength v v ≤ 53 := by
      by_contra hc
      have : 2 ^ 53 ≤ 2 ^ (bitLength v v - 1) :=
        Nat.pow_le_pow_right (by norm_num) (by omega)
      omega
    have hone : bitLength 1 1 = 1 := by simp [bitLength]
    have hfl : floorLog2 v 1 = ((bitLength v v - 1 : Nat) : Int) := by
      simp [floorLog2, hone, hL1, hlo]
    have hbig : ¬ (2 ^ 1024 ≤ v) := not_overflow_of_lt v hv
    by_cases hL : bitLength v v = 53
    · have ht : max ((bitLength v v - 1 : Nat) : Int) (-1022) - 52 = 0 := by
        rw [hL]; decide
      simp only [roundToDouble, h0, if_false, hfl, ht]
      simp [divRoundHalfEven_one, hbig, -Nat.reducePow]
    · have ht : max ((bitLength v v - 1 : Nat) : Int) (-1022) - 52 =
          -((53 - bitLength v v : Nat) : Int) := by omega
      have hneg : ¬ (0 : Int) ≤ -((53 - bitLength v v : Nat) : Int) := by omega
      simp only [roundToDouble, h0, if_false, hfl, ht, hneg, neg_neg, Int.toNat_ofNat]
      simp [divRoundHalfEven_one, reduceDyadic_mul_pow]


set_option exponentiation.threshold 2000 in
set_option maxRecDepth 100000 in
theorem roundToDouble_two_pow_53 : roundToDouble false (2 ^ 53) 1 = .fin false (2 ^ 53) 0 := by
  decide

theorem isDigit_iff (c : Char) : c.isDigit = true ↔ '0' ≤ c ∧ c ≤ '9' := by
  simp [Char.isDigit, Char.le_def, UInt32.le_def]

theorem hexDigit_of_isDigit (c : Char) (h : c.isDigit = true) :
    hexDigit c = some (c.toNat - '0'.toNat) := by
  simp [hexDigit, (isDigit_iff c).1 h]

theorem toNat_le_of_isDigit (c : Char) (h : c.isDigit = true) : c.toNat ≤ 57 := by
  have := ((isDigit_iff c).1 h).2
  simpa [Char.le_def, UInt32.le_def, Char.toNat] using this

theorem digitIn_ten_of_isDigit (c : Char) (h : c.isDigit = true) :
    digitIn 10 c = some (c.toNat - '0'.toNat) := by
  have hle := toNat_le_of_isDigit c h
  have h48 : '0'.toNat = 48 := rfl
  have hlt : c.toNat - 48 < 10 := by omega
  simp [digitIn, hexDigit_of_isDigit c h, h48, hlt]

theorem decDigit_of_isDigit (c : Char) (h : c.isDigit = true) :
    (decDigit c).isSome = true := by
  simp [decDigit, (isDigit_iff c).1 h]

theorem digitsFrom_of_isDigit (s : List Char) : ∀ acc, (∀ c ∈ s, c.isDigit = true) →
    digitsFrom 10 acc s = some (s.foldl (fun a c => a * 10 + (c.toNat - '0'.toNat)) acc) := by
  induction s with
  | nil => intro acc _; rfl
  | cons c cs ih =>
    intro acc h
    simp only [digitsFrom, digitIn_ten_of_isDigit c (h c (List.mem_cons_self _ _)),
      List.foldl_cons]
    exact ih _ fun d hd => h d (List.mem_cons_of_mem _ hd)

theorem nonDecimal_of_isDigit (t : List Char) (h : ∀ c ∈ t, c.isDigit = true) :
    nonDecimalIntegerLiteral t = none := by
  match t, h with
  | [], _ => rfl
  | [a], _ => simp [nonDecimalIntegerLiteral]
  | a :: c :: ds, h =>
    have hc := (isDigit_iff c).1 (h c (by simp))
    have hle := toNat_le_of_isDigit c (h c (by simp))
    have n1 : c ≠ 'b' := by rintro rfl; revert hle; decide
    have n2 : c ≠ 'B' := by rintro rfl; revert hle; decide
    have n3 : c ≠ 'o' := by rintro rfl; revert hle; decide
    have n4 : c ≠ 'O' := by rintro rfl; revert hle; decide
    have n5 : c ≠ 'x' := by rintro rfl; revert hle; decide
    have n6 : c ≠ 'X' := by rintro rfl; revert hle; decide
    unfold nonDecimalIntegerLiteral
    split
    · rename_i heq
      simp only [List.cons.injEq] at heq
      obtain ⟨-, rfl, -⟩ := heq
      simp [n1, n2, n3, n4, n5, n6]
    · rfl

theorem strUnsigned_of_isDigit (t : List Char) (hne : t ≠ [])
    (h : ∀ c ∈ t, c.isDigit = true) :
    strUnsignedDecimalLiteral t = some (.dec (decimalValue t) 0) := by
  have hinf : t ≠ "Infinity".toList := by
    rintro rfl
    exact absurd (h 'I' (by decide)) (by decide)
  have htake : t.takeWhile (fun c => (decDigit c).isSome) = t :=
    List.takeWhile_eq_self_iff.2 fun c hc => decDigit_of_isDigit c (h c hc)
  have hdrop : t.dropWhile (fun c => (decDigit c).isSome) = [] :=
    List.dropWhile_eq_nil_iff.2 fun c hc => decDigit_of_isDigit c (h c hc)
  simp only [strUnsignedDecimalLiteral, hinf, if_false, htake, hdrop, digits, hne,
    digitsFrom_of_isDigit t 0 h, exponentPart, decimalValue]

theorem strNumericLiteral_of_isDigit (t : List Char) (hne : t ≠ [])
    (h : ∀ c ∈ t, c.isDigit = true) :
    strNumericLiteral t = some (false, .dec (decimalValue t) 0) := by
  obtain ⟨a, as, rfl⟩ := List.exists_cons_of_ne_nil hne
  have ha := toNat_le_of_isDigit a (h a (by simp))
  have ha0 := (isDigit_iff a).1 (h a (by simp))
  have p1 : a ≠ '+' := by rintro rfl; revert ha0; decide
  have p2 : a ≠ '-' := by rintro rfl; revert ha0; decide
  unfold strNumericLiteral
  rw [nonDecimal_of_isDigit _ h]
  simp only
  split
  · rename_i heq; simp only [List.cons.injEq] at heq; exact absurd heq.1 p1
  · rename_i heq; simp only [List.cons.injEq] at heq; exact absurd heq.1 p2
  · simp [strUnsigned_of_isDigit _ hne h]

theorem Number_of_isDigit (q : JSString) (hne : trim q ≠ [])
    (h : ∀ c ∈ trim q, c.isDigit = true) :
    Number q = roundToDouble false (decimalValue (trim q)) 1 := by
  simp [Number, stringToNumber, hne, strNumericLiteral_of_isDigit _ hne h]

theorem roundToDouble_ne_nan (neg : Bool) (p q : Nat) : roundToDouble neg p q ≠ .nan := by
  unfold roundToDouble
  split
  · simp
  · simp only
    split
    · split <;> simp
    · simp

theorem Number_ne_nan_iff (q : JSString) (hne : trim q ≠ []) :
    Number q ≠ .nan ↔ (strNumericLiteral (trim q)).isSome = true := by
  unfold Number stringToNumber
  simp only [hne, if_false]
  rcases h : strNumericLiteral (trim q) with _ | ⟨neg, _ | ⟨d, x⟩⟩
  · simp
  · simp
  · simp only [Option.isSome_some, iff_true]
    split <;> exact roundToDouble_ne_nan _ _ _

set_option exponentiation.threshold 2000 in
set_option maxRecDepth 100000 in
/-- Identifiers as a template literal prints them: in full up to 21 digits,
with the shortest digits that give the double back, and with an exponent
beyond. -/
theorem idToString_examples :
    idToString 5 = "5".toList ∧
    idToString (-12) = "-12".toList ∧
    idToString (2 ^ 53 + 1) = "9007199254740992".toList ∧
    idToString (2 ^ 60) = "1152921504606847000".toList ∧
    idToString (10 ^ 21) = "1e+21".toList := by
  decide

/-! ## Traces -/

theorem run_handleSearch_blank (env : Env) (n : Nat) (q : JSString) (hq : trim q = []) :
    run env n (handleSearch q) =
      [.setStatus ⟨"Please enter a name or ID".toList, true⟩, .returned none] := by
  simp [run, handleSearch, hq, updateStatus, runSegment]
  cases n <;> simp [eventLoop]

theorem run_handleSearch_id (env : Env) (n : Nat) (q : JSString) (hq : trim q ≠ [])
    (hnum : isNaN q = false) :
    run env (n + 1) (handleSearch q) =
      .setStatus ⟨"Searching…".toList, false⟩ :: .request (.getById (Number q)) ::
        (match env.respond (.getById (Number q)) with
          | .ok (some person) =>
            [.setPersons [person], .setStatus ⟨"Found by ID: ".toList ++ q, false⟩,
              .returned none]
          | .ok none =>
            [.setPersons [], .setStatus ⟨"No person found with ID: ".toList ++ q, false⟩,
              .returned none]
          | .error message =>
            [.setStatus ⟨message, true⟩, .setPersons [], .returned none]) := by
  simp only [run, handleSearch, hq, hnum, updateStatus, runSegment, eventLoop]
  rcases h : env.respond (.getById (Number q)) with m | (_ | p) <;>
    cases n <;> simp [h, runSegment, eventLoop]

theorem run_handleSearch_name (env : Env) (n : Nat) (q : JSString) (hq : trim q ≠ [])
    (hnan : isNaN q = true) :
    run env (n + 1) (handleSearch q) =
      .setStatus ⟨"Searching…".toList, false⟩ :: .request (.searchByName q) ::
        (match env.respond (.searchByName q) with
          | .ok results =>
            [.setPersons results,
              .setStatus ⟨if results.length = 0 then
                  "No results found for: \"".toList ++ q ++ "\"".toList
                else
                  "Found ".toList ++ natToString results.length ++
                    " result(s) for: \"".toList ++ q ++ "\"".toList, false⟩,
              .returned none]
          | .error message =>
            [.setStatus ⟨message, true⟩, .setPersons [], .returned none]) := by
  simp only [run, handleSearch, hq, hnan, updateStatus, runSegment, eventLoop]
  rcases h : env.respond (.searchByName q) with m | rs
  · cases n <;> simp [h, runSegment, eventLoop]
  · by_cases hl : rs.length = 0 <;> cases n <;> simp [h, hl, runSegment, eventLoop]

theorem run_handleAdd_ok (env : Env) (n : Nat) (person : NewPerson) (created : Person)
    (h : env.respond (.create person) = .ok created) :
    run env (n + 2) (handleAdd person) =
      [.request (.create person), .setStatus ⟨"Added person".toList, false⟩,
        .setStatus ⟨"Loading…".toList, false⟩, .request .getAll, .returned (some true)] ++
        loadPersonsTail env := by
  simp only [run, handleAdd, updateStatus, runSegment, eventLoop, h, loadPersons,
    loadPersonsTail]
  rcases h2 : env.respond .getAll with m | ps <;>
    cases n <;> simp [h2, runSegment, eventLoop]

theorem run_handleAdd_error (env : Env) (n : Nat) (person : NewPerson) (m : JSString)
    (h : env.respond (.create person) = .error m) :
    run env (n + 1) (handleAdd person) =
      [.request (.create person), .setStatus ⟨m, true⟩, .returned (some false)] := by
  simp only [run, handleAdd, updateStatus, runSegment, eventLoop, h]
  cases n <;> simp [runSegment, eventLoop]

theorem run_handleUpdate_ok (env : Env) (n : Nat) (id : Int) (person updated : Person)
    (h : env.respond (.update id person) = .ok updated) :
    run env (n + 2) (handleUpdate id person) =
      [.request (.update id person), .setStatus ⟨"Updated #".toList ++ idToString id, false⟩,
        .setStatus ⟨"Loading…".toList, false⟩, .request .getAll, .setEditingPerson none,
        .returned (some true)] ++ loadPersonsTail env := by
  simp only [run, handleUpdate, updateStatus, runSegment, eventLoop, h, loadPersons,
    loadPersonsTail]
  rcases h2 : env.respond .getAll with m | ps <;>
    cases n <;> simp [h2, runSegment, eventLoop]

theorem run_handleUpdate_error (env : Env) (n : Nat) (id : Int) (person : Person)
    (m : JSString) (h : env.respond (.update id person) = .error m) :
    run env (n + 1) (handleUpdate id person) =
      [.request (.update id person), .setStatus ⟨m, true⟩, .returned (some false)] := by
  simp only [run, handleUpdate, updateStatus, runSegment, eventLoop, h]
  cases n <;> simp [runSegment, eventLoop]

theorem run_handleDelete_declined (env : Env) (n : Nat) (editing : Option Person) (id : Int)
    (hc : env.confirm (deletePrompt id) = false) :
    run env n (handleDelete editing id) =
      [.confirm (deletePrompt id) false, .setStatus ⟨"Deletion cancelled".toList, false⟩,
        .returned none] := by
  simp only [run, handleDelete, updateStatus, runSegment, hc]
  cases n <;> simp [runSegment, eventLoop]

theorem run_handleDelete_ok (env : Env) (n : Nat) (editing : Option Person) (id : Int)
    (hc : env.confirm (deletePrompt id) = true) (h : env.respond (.delete id) = .ok ()) :
    run env (n + 2) (handleDelete editing id) =
      [.confirm (deletePrompt id) true, .request (.delete id),
        .setStatus ⟨"Deleted #".toList ++ idToString id, false⟩] ++
      (match editing with
        | some p => if p.id = id then [.setEditingPerson none] else []
        | none => []) ++
      [.setStatus ⟨"Loading…".toList, false⟩, .request .getAll, .returned none] ++
        loadPersonsTail env := by
  simp only [run, handleDelete, updateStatus, runSegment, eventLoop, hc, h, loadPersons,
    loadPersonsTail]
  rcases h2 : env.respond .getAll with m | ps <;> rcases editing with _ | p
  · cases n <;> simp [h2, runSegment, eventLoop]
  · by_cases hp : p.id = id <;> cases n <;> simp [h2, hp, runSegment, eventLoop]
  · cases n <;> simp [h2, runSegment, eventLoop]
  · by_cases hp : p.id = id <;> cases n <;> simp [h2, hp, runSegment, eventLoop]

theorem run_handleDelete_error (env : Env) (n : Nat) (editing : Option Person) (id : Int)
    (m : JSString) (hc : env.confirm (deletePrompt id) = true)
    (h : env.respond (.delete id) = .error m) :
    run env (n + 1) (handleDelete editing id) =
      [.confirm (deletePrompt id) true, .request (.delete id), .setStatus ⟨m, true⟩,
        .returned none] := by
  simp only [run, handleDelete, updateStatus, runSegment, eventLoop, hc, h]
  cases n <;> simp [runSegment, eventLoop]

/-! ## Search -/

/-- C1 (amended): for a query that is not blank, `handleSearch` looks a person
up by identifier exactly when `Number(query)` is not `NaN`, that is when the
trimmed query is a `StrNumericLiteral`; this holds of every query that denotes
a finite number, and also of `Infinity` with or without a sign. Every other
query that is not blank is searched by name. The query `12a` is searched by
name and the query ` 5 ` is looked up as the identifier 5. -/
theorem search_classification (env : Env) (n : Nat) (q : JSString) (hq : trim q ≠ []) :
    ((∃ id, Request.getById id ∈ requests (run env (n + 1) (handleSearch q))) ↔
      Number q ≠ .nan) ∧
    (Number q ≠ .nan ↔ (strNumericLiteral (trim q)).isSome = true) ∧
    ((Number q).isFinite = true →
      requests (run env (n + 1) (handleSearch q)) = [.getById (Number q)]) ∧
    (Number q ≠ .nan →
      requests (run env (n + 1) (handleSearch q)) = [.getById (Number q)]) ∧
    (Number q = .nan →
      requests (run env (n + 1) (handleSearch q)) = [.searchByName q]) ∧
    requests (run env (n + 1) (handleSearch "12a".toList)) = [.searchByName "12a".toList] ∧
    requests (run env (n + 1) (handleSearch " 5 ".toList)) = [.getById (.fin false 5 0)] := by
  have hid : ∀ q' : JSString, trim q' ≠ [] → Number q' ≠ .nan →
      requests (run env (n + 1) (handleSearch q')) = [.getById (Number q')] := by
    intro q' hq' hnum
    have hnan : isNaN q' = false := by
      simpa [isNaN, Number] using hnum
    rw [run_handleSearch_id env n q' hq' hnan]
    rcases h : env.respond (.getById (Number q')) with m | (_ | p) <;> simp [requests]
  have hname : ∀ q' : JSString, trim q' ≠ [] → Number q' = .nan →
      requests (run env (n + 1) (handleSearch q')) = [.searchByName q'] := by
    intro q' hq' hnum
    have hnan : isNaN q' = true := by
      simpa [isNaN, Number] using hnum
    rw [run_handleSearch_name env n q' hq' hnan]
    rcases h : env.respond (.searchByName q') with m | rs <;> simp [requests]
  refine ⟨?_, Number_ne_nan_iff q hq, ?_, hid q hq, hname q hq, ?_, ?_⟩
  · constructor
    · rintro ⟨id, hmem⟩ hnum
      rw [hname q hq hnum] at hmem
      simp at hmem
    · intro hnum
      exact ⟨Number q, by simp [hid q hq hnum]⟩
  · intro hfin
    apply hid q hq
    intro hnum
    rw [hnum] at hfin
    simp [JSNumber.isFinite] at hfin
  · exact hname _ (by decide) (by decide)
  · have h5 : Number " 5 ".toList = .fin false 5 0 := by decide
    rw [← h5]
    exact hid _ (by decide) (by rw [h5]; decide)

/-- C2 (amended): for a query whose trimmed form is a non-empty string of
decimal digits, `handleSearch` issues exactly one request, `getById` with
`Number(query)`: the double nearest to the number the digits denote, which is
that number itself up to `2 ^ 53`. When the request resolves to a person,
`persons` becomes that person alone and `status` becomes `Found by ID: `
followed by the query; when it resolves to nothing, `persons` becomes empty
and `status` becomes `No person found with ID: ` followed by the query; the
error flag is off in both cases. -/
theorem search_by_id_digits (env : Env) (n : Nat) (st : State) (q : JSString)
    (hq : trim q ≠ []) (hd : ∀ c ∈ trim q, c.isDigit = true) :
    requests (run env (n + 1) (handleSearch q)) = [.getById (Number q)] ∧
    Number q = roundToDouble false (decimalValue (trim q)) 1 ∧
    (decimalValue (trim q) ≤ 2 ^ 53 → Number q = .fin false (decimalValue (trim q)) 0) ∧
    (∀ p, env.respond (.getById (Number q)) = .ok (some p) →
      (st.after (run env (n + 1) (handleSearch q))).persons = [p] ∧
      (st.after (run env (n + 1) (handleSearch q))).status =
        ⟨"Found by ID: ".toList ++ q, false⟩) ∧
    (env.respond (.getById (Number q)) = .ok none →
      (st.after (run env (n + 1) (handleSearch q))).persons = [] ∧
      (st.after (run env (n + 1) (handleSearch q))).status =
        ⟨"No person found with ID: ".toList ++ q, false⟩) := by
  have hN := Number_of_isDigit q hq hd
  have hnan : isNaN q = false := by
    have := roundToDouble_ne_nan false (decimalValue (trim q)) 1
    rw [← hN] at this
    simpa [isNaN, Number] using this
  rw [run_handleSearch_id env n q hq hnan]
  refine ⟨?_, hN, ?_, ?_, ?_⟩
  · rcases h : env.respond (.getById (Number q)) with m | (_ | p) <;> simp [requests]
  · intro hv
    rw [hN]
    rcases Nat.lt_or_eq_of_le hv with hlt | heq
    · exact roundToDouble_exact false _ hlt
    · rw [heq]
      exact roundToDouble_two_pow_53
  · intro p h
    rw [h]
    simp [State.after, State.step]
  · intro h
    rw [h]
    simp [State.after, State.step]

/-- C3: a query that is not blank and not numeric (`isNaN`) makes `handleSearch`
issue exactly one request, `searchByName` with the query as typed, and no
lookup by identifier; when the request resolves to `results`, `persons`
becomes `results` and `status` becomes, without the error flag,
`No results found for: "q"` if `results` is empty and
`Found N result(s) for: "q"`, `N` the length of `results`, otherwise. -/
theorem search_by_name (env : Env) (n : Nat) (st : State) (q : JSString)
    (hq : trim q ≠ []) (hnan : isNaN q = true) :
    requests (run env (n + 1) (handleSearch q)) = [.searchByName q] ∧
    ∀ results, env.respond (.searchByName q) = .ok results →
      (st.after (run env (n + 1) (handleSearch q))).persons = results ∧
      (results ≠ [] →
        (st.after (run env (n + 1) (handleSearch q))).status =
          ⟨"Found ".toList ++ natToString results.length ++ " result(s) for: \"".toList ++
            q ++ "\"".toList, false⟩) ∧
      (results = [] →
        (st.after (run env (n + 1) (handleSearch q))).status =
          ⟨"No results found for: \"".toList ++ q ++ "\"".toList, false⟩) := by
  rw [run_handleSearch_name env n q hq hnan]
  constructor
  · rcases h : env.respond (.searchByName q) with m | rs <;> simp [requests]
  · intro results h
    rw [h]
    refine ⟨by simp [State.after, State.step], ?_, ?_⟩
    · intro hne
      have : results.length ≠ 0 := by simpa using hne
      simp [State.after, State.step, this]
    · intro he
      simp [State.after, State.step, he]

/-- C4: when the request `handleSearch` issues for a query that is not blank
is rejected with message `m`, there was exactly one such request, `status`
becomes `m` with the error flag, `persons` becomes empty and `editingPerson`
keeps its value. -/
theorem search_failure (env : Env) (n : Nat) (st : State) (q m : JSString)
    (hq : trim q ≠ [])
    (hfail : ∀ r, r ∈ requests (run env (n + 1) (handleSearch q)) →
      env.respond r = .error m) :
    (requests (run env (n + 1) (handleSearch q))).length = 1 ∧
    (st.after (run env (n + 1) (handleSearch q))).status = ⟨m, true⟩ ∧
    (st.after (run env (n + 1) (handleSearch q))).persons = [] ∧
    (st.after (run env (n + 1) (handleSearch q))).editingPerson = st.editingPerson := by
  cases hnan : isNaN q
  · rw [run_handleSearch_id env n q hq hnan] at hfail ⊢
    have h := hfail (.getById (Number q)) (by simp [requests])
    rw [h]
    simp [requests, State.after, State.step]
  · rw [run_handleSearch_name env n q hq hnan] at hfail ⊢
    have h := hfail (.searchByName q) (by simp [requests])
    rw [h]
    simp [requests, State.after, State.step]

/-- C5: for a query whose trimmed form is empty, `handleSearch` issues no
request, sets `status` to `Please enter a name or ID` with the error flag and
leaves `persons` and `editingPerson` as they were. -/
theorem search_blank (env : Env) (n : Nat) (st : State) (q : JSString) (hq : trim q = []) :
    requests (run env n (handleSearch q)) = [] ∧
    (st.after (run env n (handleSearch q))).status =
      ⟨"Please enter a name or ID".toList, true⟩ ∧
    (st.after (run env n (handleSearch q))).persons = st.persons ∧
    (st.after (run env n (handleSearch q))).editingPerson = st.editingPerson := by
  rw [run_handleSearch_blank env n q hq]
  simp [requests, State.after, State.step]

/-! ## Mutations -/

/-- C6: when the request of `handleAdd`, of `handleUpdate` or of a confirmed
`handleDelete` is rejected with message `m`, `persons` and `editingPerson` are
what they were before the call, `status` becomes `m` with the error flag, no
`getAll` request is issued, and `handleAdd` and `handleUpdate` return
`false`. -/
theorem mutation_failure (env : Env) (n : Nat) (st : State) (m : JSString) :
    (∀ person, env.respond (.create person) = .error m →
      (st.after (run env (n + 1) (handleAdd person))).persons = st.persons ∧
      (st.after (run env (n + 1) (handleAdd person))).editingPerson = st.editingPerson ∧
      (st.after (run env (n + 1) (handleAdd person))).status = ⟨m, true⟩ ∧
      Request.getAll ∉ requests (run env (n + 1) (handleAdd person)) ∧
      returnValue (run env (n + 1) (handleAdd person)) = some (some false)) ∧
    (∀ id person, env.respond (.update id person) = .error m →
      (st.after (run env (n + 1) (handleUpdate id person))).persons = st.persons ∧
      (st.after (run env (n + 1) (handleUpdate id person))).editingPerson =
        st.editingPerson ∧
      (st.after (run env (n + 1) (handleUpdate id person))).status = ⟨m, true⟩ ∧
      Request.getAll ∉ requests (run env (n + 1) (handleUpdate id person)) ∧
      returnValue (run env (n + 1) (handleUpdate id person)) = some (some false)) ∧
    (∀ id, env.confirm (deletePrompt id) = true → env.respond (.delete id) = .error m →
      (st.after (run env (n + 1) (handleDelete st.editingPerson id))).persons = st.persons ∧
      (st.after (run env (n + 1) (handleDelete st.editingPerson id))).editingPerson =
        st.editingPerson ∧
      (st.after (run env (n + 1) (handleDelete st.editingPerson id))).status = ⟨m, true⟩ ∧
      Request.getAll ∉ requests (run env (n + 1) (handleDelete st.editingPerson id))) := by
  refine ⟨?_, ?_, ?_⟩
  · intro person h
    rw [run_handleAdd_error env n person m h]
    simp [requests, State.after, State.step, returnValue]
  · intro id person h
    rw [run_handleUpdate_error env n id person m h]
    simp [requests, State.after, State.step, returnValue]
  · intro id hc h
    rw [run_handleDelete_error env n st.editingPerson id m hc h]
    simp [requests, State.after, State.step]

/-- C7: when the user declines the prompt, `handleDelete` issues no request
(neither `delete` nor `getAll`), sets `status` to `Deletion cancelled` without
the error flag and leaves `persons` and `editingPerson` as they were. -/
theorem delete_declined (env : Env) (n : Nat) (st : State) (id : Int)
    (hc : env.confirm (deletePrompt id) = false) :
    requests (run env n (handleDelete st.editingPerson id)) = [] ∧
    (st.after (run env n (handleDelete st.editingPerson id))).status =
      ⟨"Deletion cancelled".toList, false⟩ ∧
    (st.after (run env n (handleDelete st.editingPerson id))).persons = st.persons ∧
    (st.after (run env n (handleDelete st.editingPerson id))).editingPerson =
      st.editingPerson := by
  rw [run_handleDelete_declined env n st.editingPerson id hc]
  simp [requests, State.after, State.step]

/-- C8: after a confirmed `handleDelete` whose request succeeds,
`editingPerson` is `null` if it held a person with the deleted identifier and
keeps its value otherwise (another person, or `null`); the requests issued are
one `delete` of that identifier followed by one `getAll`. -/
theorem delete_success (env : Env) (n : Nat) (st : State) (id : Int)
    (hc : env.confirm (deletePrompt id) = true) (h : env.respond (.delete id) = .ok ()) :
    ((∃ p, st.editingPerson = some p ∧ p.id = id) →
      (st.after (run env (n + 2) (handleDelete st.editingPerson id))).editingPerson = none) ∧
    ((¬ ∃ p, st.editingPerson = some p ∧ p.id = id) →
      (st.after (run env (n + 2) (handleDelete st.editingPerson id))).editingPerson =
        st.editingPerson) ∧
    requests (run env (n + 2) (handleDelete st.editingPerson id)) =
      [.delete id, .getAll] := by
  rw [run_handleDelete_ok env n st.editingPerson id hc h]
  rcases st with ⟨persons, status, _ | p⟩
  · rcases h2 : env.respond .getAll with e | ps <;>
      simp [requests, State.after, State.step, loadPersonsTail, h2]
  · by_cases hp : p.id = id <;> rcases h2 : env.respond .getAll with e | ps <;>
      simp [requests, State.after, State.step, loadPersonsTail, h2, hp]

/-- C9: when the request of `handleUpdate` succeeds, the handler returns
`true`, `editingPerson` is `null` afterwards whatever it held, and exactly one
`getAll` request follows the `update` request. -/
theorem update_success (env : Env) (n : Nat) (st : State) (id : Int)
    (person updated : Person) (h : env.respond (.update id person) = .ok updated) :
    returnValue (run env (n + 2) (handleUpdate id person)) = some (some true) ∧
    (st.after (run env (n + 2) (handleUpdate id person))).editingPerson = none ∧
    requests (run env (n + 2) (handleUpdate id person)) = [.update id person, .getAll] := by
  rw [run_handleUpdate_ok env n id person updated h]
  rcases h2 : env.respond .getAll with e | ps <;>
    simp [requests, State.after, State.step, returnValue, loadPersonsTail, h2]

theorem reloadsAfter_of_trace (env : Env) (st : State) (before : List Event)
    (success : Status) (value : Option Bool)
    (hw : statusWrites before = [success, ⟨"Loading…".toList, false⟩])
    (hr : Request.getAll ∈ requests before)
    (hv : returnValue before = none)
    (hs : success.isError = false) (hm : success.message ≠ "Loaded".toList) :
    ReloadsAfter env st (before ++ .returned value :: loadPersonsTail env) success value := by
  have hret : returnValue (before ++ .returned value :: loadPersonsTail env) = some value := by
    unfold returnValue at hv ⊢
    rw [List.findSome?_append, hv]
    simp
  refine ⟨before, loadPersonsTail env, rfl, hw, hr, hret, ?_, ?_, ?_, ?_⟩
  · intro data h
    simp [loadPersonsTail, h, statusWrites, State.after, State.step, List.foldl_append]
  · intro message h
    simp [loadPersonsTail, h, statusWrites, State.after, State.step, List.foldl_append]
  · rcases success with ⟨msg, err⟩
    simp only at hs hm
    subst hs
    rcases h : env.respond .getAll with e | ps
    · simp [loadPersonsTail, h, State.after, State.step, List.foldl_append]
    · simp only [loadPersonsTail, h, State.after, State.step, List.foldl_append, List.foldl_cons,
        List.foldl_nil]
      intro heq
      exact hm (congrArg Status.message heq).symm
  · rcases h : env.respond .getAll with e | ps
    · simp only [loadPersonsTail, h, State.after, State.step, List.foldl_append,
        List.foldl_cons, List.foldl_nil]
      intro heq
      rw [heq]
    · simp only [loadPersonsTail, h, State.after, State.step, List.foldl_append,
        List.foldl_cons, List.foldl_nil]
      intro heq
      exact absurd heq.symm hm

/-- C10 (amended): in a successful `handleAdd`, `handleUpdate` or confirmed
`handleDelete`, the write of the success message (`Added person`,
`Updated #id`, `Deleted #id`, the identifier printed as a template literal
prints a number) to `status` is directly followed by the write of `Loading…`
that the un-awaited `loadPersons` makes before the handler returns; the last
write is `Loaded` (with `persons` replaced by the result) when the `getAll`
request resolves and its error message, flagged, when it is rejected. So
`status` never ends on the success status, and its text is the success
message only when `getAll` is rejected with that very text as its error
message; `handleAdd` and `handleUpdate` return `true` in both cases. -/
theorem success_message_overwritten (env : Env) (n : Nat) (st : State) :
    (∀ person created, env.respond (.create person) = .ok created →
      ReloadsAfter env st (run env (n + 2) (handleAdd person))
        ⟨"Added person".toList, false⟩ (some true)) ∧
    (∀ id person updated, env.respond (.update id person) = .ok updated →
      ReloadsAfter env st (run env (n + 2) (handleUpdate id person))
        ⟨"Updated #".toList ++ idToString id, false⟩ (some true)) ∧
    (∀ id, env.confirm (deletePrompt id) = true → env.respond (.delete id) = .ok () →
      ReloadsAfter env st (run env (n + 2) (handleDelete st.editingPerson id))
        ⟨"Deleted #".toList ++ idToString id, false⟩ none) := by
  refine ⟨?_, ?_, ?_⟩
  · intro person created h
    rw [run_handleAdd_ok env n person created h]
    exact reloadsAfter_of_trace env st
      [.request (.create person), .setStatus ⟨"Added person".toList, false⟩,
        .setStatus ⟨"Loading…".toList, false⟩, .request .getAll] _ _
      (by simp [statusWrites]) (by simp [requests]) (by simp [returnValue]) rfl (by decide)
  · intro id person updated h
    rw [run_handleUpdate_ok env n id person updated h]
    exact reloadsAfter_of_trace env st
      [.request (.update id person),
        .setStatus ⟨"Updated #".toList ++ idToString id, false⟩,
        .setStatus ⟨"Loading…".toList, false⟩, .request .getAll, .setEditingPerson none] _ _
      (by simp [statusWrites]) (by simp [requests]) (by simp [returnValue]) rfl (by simp)
  · intro id hc h
    rw [run_handleDelete_ok env n st.editingPerson id hc h]
    have key := reloadsAfter_of_trace env st
      ([.confirm (deletePrompt id) true, .request (.delete id),
        .setStatus ⟨"Deleted #".toList ++ idToString id, false⟩] ++
      (match st.editingPerson with
        | some p => if p.id = id then [.setEditingPerson none] else []
        | none => []) ++
      [.setStatus ⟨"Loading…".toList, false⟩, .request .getAll])
      ⟨"Deleted #".toList ++ idToString id, false⟩ none
      (by rcases st.editingPerson with _ | p
          · simp [statusWrites]
          · by_cases hp : p.id = id <;> simp [statusWrites, hp])
      (by simp [requests])
      (by rcases st.editingPerson with _ | p
          · simp [returnValue]
          · by_cases hp : p.id = id <;> simp [returnValue, hp])
      rfl (by simp)
    simpa [List.append_assoc] using key

/-! ## Instances -/

/-- The query `Infinity` is not blank and does not denote a finite number, yet
`handleSearch` looks it up as an identifier. -/
theorem search_infinity_is_id_lookup :
    trim "Infinity".toList ≠ [] ∧
    (Number "Infinity".toList).isFinite = false ∧
    requests (run sampleBackend 1 (handleSearch "Infinity".toList)) =
      [.getById (.inf false)] := by
  decide

/-- The hexadecimal query `0x1F` is looked up as the identifier 31. -/
theorem search_classification_witness :
    trim "0x1F".toList ≠ [] ∧
    Number "0x1F".toList ≠ .nan ∧
    requests (run sampleBackend 1 (handleSearch "0x1F".toList)) =
      [.getById (.fin false 31 0)] :=
  ⟨by decide, by decide,
    (search_classification sampleBackend 0 "0x1F".toList (by decide)).2.2.2.1 (by decide)⟩

set_option exponentiation.threshold 2000 in
set_option maxRecDepth 100000 in
/-- The query `9007199254740993` is a string of digits denoting `2 ^ 53 + 1`,
and `handleSearch` requests the person `2 ^ 53`. -/
theorem search_digits_rounded :
    trim "9007199254740993".toList ≠ [] ∧
    (∀ c ∈ trim "9007199254740993".toList, c.isDigit = true) ∧
    decimalValue (trim "9007199254740993".toList) = 9007199254740993 ∧
    requests (run sampleBackend 1 (handleSearch "9007199254740993".toList)) =
      [.getById (.fin false 9007199254740992 0)] := by
  decide

/-- The query ` 5 ` finds the person 5, and the status quotes the query with
its spaces. -/
theorem search_by_id_digits_witness :
    trim " 5 ".toList ≠ [] ∧
    (∀ c ∈ trim " 5 ".toList, c.isDigit = true) ∧
    requests (run sampleBackend 1 (handleSearch " 5 ".toList)) =
      [.getById (.fin false 5 0)] ∧
    (sampleState.after (run sampleBackend 1 (handleSearch " 5 ".toList))).persons =
      [⟨5, "Bob Ray".toList, []⟩] ∧
    (sampleState.after (run sampleBackend 1 (handleSearch " 5 ".toList))).status =
      ⟨"Found by ID:  5 ".toList, false⟩ :=
  ⟨by decide, by decide,
    (search_by_id_digits sampleBackend 0 sampleState " 5 ".toList (by decide) (by decide)).1,
    (search_by_id_digits sampleBackend 0 sampleState " 5 ".toList (by decide)
      (by decide)).2.2.2.1 ⟨5, "Bob Ray".toList, []⟩ rfl⟩

/-- The query `Ann` finds two persons by name. -/
theorem search_by_name_witness :
    trim "Ann".toList ≠ [] ∧
    isNaN "Ann".toList = true ∧
    requests (run sampleBackend 1 (handleSearch "Ann".toList)) =
      [.searchByName "Ann".toList] ∧
    (sampleState.after (run sampleBackend 1 (handleSearch "Ann".toList))).persons =
      [⟨1, "Ann Lee".toList, []⟩, ⟨2, "Anna Bell".toList, []⟩] ∧
    (sampleState.after (run sampleBackend 1 (handleSearch "Ann".toList))).status =
      ⟨"Found 2 result(s) for: \"Ann\"".toList, false⟩ :=
  ⟨by decide, by decide,
    (search_by_name sampleBackend 0 sampleState "Ann".toList (by decide) (by decide)).1,
    ((search_by_name sampleBackend 0 sampleState "Ann".toList (by decide) (by decide)).2
      [⟨1, "Ann Lee".toList, []⟩, ⟨2, "Anna Bell".toList, []⟩] rfl).1,
    ((search_by_name sampleBackend 0 sampleState "Ann".toList (by decide) (by decide)).2
      [⟨1, "Ann Lee".toList, []⟩, ⟨2, "Anna Bell".toList, []⟩] rfl).2.1
      (List.cons_ne_nil _ _)⟩

/-- A search while the service is unreachable empties the table and reports
the error. -/
theorem search_failure_witness :
    trim "Ann".toList ≠ [] ∧
    (∀ r, r ∈ requests (run offlineBackend 1 (handleSearch "Ann".toList)) →
      offlineBackend.respond r = .error "Failed to fetch".toList) ∧
    (requests (run offlineBackend 1 (handleSearch "Ann".toList))).length = 1 ∧
    (sampleState.after (run offlineBackend 1 (handleSearch "Ann".toList))).status =
      ⟨"Failed to fetch".toList, true⟩ ∧
    (sampleState.after (run offlineBackend 1 (handleSearch "Ann".toList))).persons = [] ∧
    (sampleState.after (run offlineBackend 1 (handleSearch "Ann".toList))).editingPerson =
      sampleState.editingPerson :=
  ⟨by decide, fun _ _ => rfl,
    search_failure offlineBackend 0 sampleState "Ann".toList "Failed to fetch".toList
      (by decide) (fun _ _ => rfl)⟩

/-- A query of three spaces is refused without a request. -/
theorem search_blank_witness :
    trim "   ".toList = [] ∧
    requests (run sampleBackend 0 (handleSearch "   ".toList)) = [] ∧
    (sampleState.after (run sampleBackend 0 (handleSearch "   ".toList))).status =
      ⟨"Please enter a name or ID".toList, true⟩ ∧
    (sampleState.after (run sampleBackend 0 (handleSearch "   ".toList))).persons =
      sampleState.persons ∧
    (sampleState.after (run sampleBackend 0 (handleSearch "   ".toList))).editingPerson =
      sampleState.editingPerson :=
  ⟨by decide, search_blank sampleBackend 0 sampleState "   ".toList (by decide)⟩

/-- While the service is unreachable, adding a person changes nothing but the
status, and so do updating and deleting the person 5. -/
theorem mutation_failure_witness :
    offlineBackend.respond (.create ⟨"Eve Fox".toList, []⟩) =
      .error "Failed to fetch".toList ∧
    (sampleState.after
      (run offlineBackend 1 (handleAdd ⟨"Eve Fox".toList, []⟩))).persons = samplePersons ∧
    returnValue (run offlineBackend 1 (handleAdd ⟨"Eve Fox".toList, []⟩)) =
      some (some false) ∧
    offlineBackend.respond (.update 5 ⟨5, "Bob Roy".toList, []⟩) =
      .error "Failed to fetch".toList ∧
    returnValue (run offlineBackend 1 (handleUpdate 5 ⟨5, "Bob Roy".toList, []⟩)) =
      some (some false) ∧
    offlineBackend.confirm (deletePrompt 5) = true ∧
    offlineBackend.respond (.delete 5) = .error "Failed to fetch".toList ∧
    (sampleState.after
      (run offlineBackend 1 (handleDelete sampleState.editingPerson 5))).status =
        ⟨"Failed to fetch".toList, true⟩ :=
  ⟨rfl,
    ((mutation_failure offlineBackend 0 sampleState "Failed to fetch".toList).1
      ⟨"Eve Fox".toList, []⟩ rfl).1,
    ((mutation_failure offlineBackend 0 sampleState "Failed to fetch".toList).1
      ⟨"Eve Fox".toList, []⟩ rfl).2.2.2.2,
    rfl,
    ((mutation_failure offlineBackend 0 sampleState "Failed to fetch".toList).2.1
      5 ⟨5, "Bob Roy".toList, []⟩ rfl).2.2.2.2,
    rfl, rfl,
    ((mutation_failure offlineBackend 0 sampleState "Failed to fetch".toList).2.2
      5 rfl rfl).2.2.1⟩

/-- A declined deletion of the person 5 issues no request. -/
theorem delete_declined_witness :
    decliningUser.confirm (deletePrompt 5) = false ∧
    requests (run decliningUser 0 (handleDelete sampleState.editingPerson 5)) = [] ∧
    (sampleState.after
      (run decliningUser 0 (handleDelete sampleState.editingPerson 5))).status =
        ⟨"Deletion cancelled".toList, false⟩ ∧
    (sampleState.after
      (run decliningUser 0 (handleDelete sampleState.editingPerson 5))).persons =
        sampleState.persons ∧
    (sampleState.after
      (run decliningUser 0 (handleDelete sampleState.editingPerson 5))).editingPerson =
        sampleState.editingPerson :=
  ⟨rfl, delete_declined decliningUser 0 sampleState 5 rfl⟩

/-- Deleting the person 5 while it is in the form empties the form; deleting
the person 1 leaves the form alone. -/
theorem delete_success_witness :
    sampleBackend.confirm (deletePrompt 5) = true ∧
    sampleBackend.respond (.delete 5) = .ok () ∧
    (sampleState.after
      (run sampleBackend 2 (handleDelete sampleState.editingPerson 5))).editingPerson =
        none ∧
    requests (run sampleBackend 2 (handleDelete sampleState.editingPerson 5)) =
      [.delete 5, .getAll] ∧
    (sampleState.after
      (run sampleBackend 2 (handleDelete sampleState.editingPerson 1))).editingPerson =
        sampleState.editingPerson :=
  ⟨rfl, rfl,
    (delete_success sampleBackend 0 sampleState 5 rfl rfl).1 ⟨_, rfl, rfl⟩,
    (delete_success sampleBackend 0 sampleState 5 rfl rfl).2.2,
    (delete_success sampleBackend 0 sampleState 1 rfl rfl).2.1 (by decide)⟩

/-- Updating the person 5 while it is in the form empties the form and
reloads the table once. -/
theorem update_success_witness :
    sampleBackend.respond (.update 5 ⟨5, "Bob Roy".toList, []⟩) =
      .ok ⟨5, "Bob Roy".toList, []⟩ ∧
    returnValue (run sampleBackend 2 (handleUpdate 5 ⟨5, "Bob Roy".toList, []⟩)) =
      some (some true) ∧
    (sampleState.after
      (run sampleBackend 2 (handleUpdate 5 ⟨5, "Bob Roy".toList, []⟩))).editingPerson =
        none ∧
    requests (run sampleBackend 2 (handleUpdate 5 ⟨5, "Bob Roy".toList, []⟩)) =
      [.update 5 ⟨5, "Bob Roy".toList, []⟩, .getAll] :=
  ⟨rfl, update_success sampleBackend 0 sampleState 5 _ _ rfl⟩

/-- A person is added and the reload is rejected with the error message
`Added person`: the handler returns `true` and `status` ends on the text of
the success message, flagged as an error. -/
theorem add_success_text_returns :
    reloadRejected.respond (.create ⟨"Eve Fox".toList, []⟩) =
      .ok ⟨6, "Eve Fox".toList, []⟩ ∧
    returnValue (run reloadRejected 2 (handleAdd ⟨"Eve Fox".toList, []⟩)) =
      some (some true) ∧
    statusWrites (run reloadRejected 2 (handleAdd ⟨"Eve Fox".toList, []⟩)) =
      [⟨"Added person".toList, false⟩, ⟨"Loading…".toList, false⟩,
        ⟨"Added person".toList, true⟩] ∧
    (sampleState.after
      (run reloadRejected 2 (handleAdd ⟨"Eve Fox".toList, []⟩))).status.message =
        "Added person".toList :=
  ⟨rfl, by decide, by decide, by decide⟩

/-- Adding, updating and deleting against the sample service: each success
message is overwritten by `Loading…` and then `Loaded`. -/
theorem success_message_overwritten_witness :
    sampleBackend.respond (.create ⟨"Eve Fox".toList, []⟩) =
      .ok ⟨6, "Eve Fox".toList, []⟩ ∧
    ReloadsAfter sampleBackend sampleState
      (run sampleBackend 2 (handleAdd ⟨"Eve Fox".toList, []⟩))
      ⟨"Added person".toList, false⟩ (some true) ∧
    sampleBackend.respond (.update 5 ⟨5, "Bob Roy".toList, []⟩) =
      .ok ⟨5, "Bob Roy".toList, []⟩ ∧
    ReloadsAfter sampleBackend sampleState
      (run sampleBackend 2 (handleUpdate 5 ⟨5, "Bob Roy".toList, []⟩))
      ⟨"Updated #5".toList, false⟩ (some true) ∧
    sampleBackend.confirm (deletePrompt 5) = true ∧
    sampleBackend.respond (.delete 5) = .ok () ∧
    ReloadsAfter sampleBackend sampleState
      (run sampleBackend 2 (handleDelete sampleState.editingPerson 5))
      ⟨"Deleted #5".toList, false⟩ none :=
  ⟨rfl,
    (success_message_overwritten sampleBackend 0 sampleState).1 _ _ rfl,
    rfl,
    (success_message_overwritten sampleBackend 0 sampleState).2.1 5 _ _ rfl,
    rfl, rfl,
    (success_message_overwritten sampleBackend 0 sampleState).2.2 5 rfl rfl⟩

end PersonApp
